import Mathlib

/-!
Verification of the pybls21 Modbus HVAC client library.

Shallow embedding of the repository's source files:
  - pybls21/constants.py   : register address constants
  - pybls21/models.py      : the ClimateDevice snapshot value and enums
  - pybls21/client.py      : S21Client (response validation, poll decode,
                             commands, the shared connection wrapper)
  - pybls21/s21client.py   : the older synchronous client (firmware parser,
                             hvac action derivation)
  - pybls21/retrying_modbus_client.py : RetryingModbusClient.retry

Machine integers are modelled as Nat with explicit bounds where Python
would overflow-check (int.to_bytes).  Fallible code returns Except.
Python float division by 10 is modelled with exact rationals; no claim
depends on binary-float rounding.
-/

/-! ## constants.py -/

def CL_POWER : Nat := 0

def CL_Boost_MODE : Nat := 3

def CL_BoostSWITCH_CTRL : Nat := 13

def CL_RESET_FILTER_TIMER : Nat := 17

def CL_RESET_ALARM : Nat := 18

def HR_MaxSPEED_MODE : Nat := 1

def HR_SPEED_MODE : Nat := 2

def HR_ManualSPEED : Nat := 17

def HR_OPERATION_MODE : Nat := 43

def HR_SetTEMP : Nat := 44

def IR_CurTEMP_SuAirIn : Nat := 1

def IR_CurTEMP_SuAirOut : Nat := 2

def IR_CurRH_Int : Nat := 10

def IR_StateFILTER : Nat := 31

def IR_VerMAIN_FMW_start : Nat := 34

def IR_VerMAIN_FMW_end : Nat := 36

def IR_DeviceTYPE : Nat := 37

def IR_ALARM : Nat := 38

/-- Modelled from the spec: constants.py under src does not define the
input-register addresses of the supply/extract fan-speed diagnostics that
client.py reads as IR_SuRPM and IR_ExRPM; the spec only states that the
optional supplyFanSpeed/extractFanSpeed diagnostics come from the
input-register region read as [0,39).  The address is fixed here inside
that region; no claim depends on its exact value. -/
def IR_SuRPM : Nat := 4

/-- Modelled from the spec: see IR_SuRPM. -/
def IR_ExRPM : Nat := 5

/-! ## models.py -/

def TEMP_CELSIUS : String := "°C"

def ClimateEntityFeature_TARGET_TEMPERATURE : Nat := 1

def ClimateEntityFeature_FAN_MODE : Nat := 8

inductive HVACMode where
  | OFF
  | HEAT
  | COOL
  | AUTO
  | FAN_ONLY
deriving Repr, DecidableEq

inductive HVACAction where
  | COOLING
  | FAN
  | HEATING
  | IDLE
  | OFF
deriving Repr, DecidableEq

/-- The ClimateDevice snapshot of models.py.  The first 23 fields are the
NamedTuple fields of src/pybls21/models.py.  The last five fields
(max_fan_level, filter_state, alarm_state, supply_fan_speed,
extract_fan_speed) are modelled from the spec: the models.py revision under
src predates client.py, which constructs ClimateDevice with these five
keyword arguments (the repository's tests construct them as well); the spec
lists them as `maxFanLevel` and the diagnostics `filterState`, `alarmState`,
optional `supplyFanSpeed`/`extractFanSpeed`. -/
structure ClimateDevice where
  available : Bool
  name : String
  unique_id : String
  temperature_unit : String
  precision : ℚ
  current_temperature : ℚ
  target_temperature : ℚ
  target_temperature_step : ℚ
  max_temp : ℚ
  min_temp : ℚ
  current_humidity : Option ℚ
  hvac_mode : HVACMode
  hvac_action : HVACAction
  hvac_modes : List HVACMode
  fan_mode : Option Nat
  fan_modes : Option (List Nat)
  supported_features : Nat
  manufacturer : String
  model : Option String
  sw_version : Option String
  is_boosting : Bool
  current_intake_temperature : ℚ
  manual_fan_speed_percent : Nat
  max_fan_level : Nat
  filter_state : Nat
  alarm_state : Nat
  supply_fan_speed : Option Nat
  extract_fan_speed : Option Nat
deriving Repr, DecidableEq

/-! ## Exceptions (exceptions.py is not under src; its two exception classes
are visible from the imports and uses in client.py and the tests).  An error
value stands for the exception that propagates. -/

inductive MErr where
  | comm
  | unsupportedDevice
  | valueError
deriving Repr, DecidableEq

/-! ## Firmware version parsing

client.py line 17-23 uses int.to_bytes(2, "big") to split each register;
s21client.py line 10-20 uses bit masks.  Python's `{n:02d}` format is
pad2. -/

/-- Python `{n:02d}` formatting for a natural number. -/
def pad2 (n : Nat) : String :=
  if n < 10 then "0" ++ toString n else toString n

/-- Python `v.to_bytes(2, "big")`: the two big-endian bytes of v, or none
when v does not fit in two bytes (Python raises OverflowError). -/
def toBytes2Big (v : Nat) : Option (Nat × Nat) :=
  if v < 65536 then some (v / 256, v % 256) else none

/-- client.py `_parse_firmware_version`: register 0 splits into
(major, minor), register 1 into (day, month), register 2 is the year;
indexing past the end (Python IndexError) and to_bytes overflow
(Python OverflowError) are the none cases. -/
def parse_firmware_version (firmwareInfo : List Nat) : Option String :=
  match firmwareInfo.get? 0, firmwareInfo.get? 1, firmwareInfo.get? 2 with
  | some r0, some r1, some r2 =>
    match toBytes2Big r0, toBytes2Big r1 with
    | some (major, minor), some (day, month) =>
      some (toString major ++ "." ++ toString minor ++ " (" ++ toString r2
        ++ "-" ++ pad2 month ++ "-" ++ pad2 day ++ ")")
    | _, _ => none
  | _, _, _ => none

/-- s21client.py `_parse_firmware_version`: the same three registers split
with bit masks; total on any three values (masks never overflow). -/
def parse_firmware_version_s21 (firmwareInfo : List Nat) : Option String :=
  match firmwareInfo.get? 0, firmwareInfo.get? 1, firmwareInfo.get? 2 with
  | some majorMinor, some dayMonth, some year =>
    some (toString ((majorMinor &&& 0xff00) >>> 8) ++ "."
      ++ toString (majorMinor &&& 0xff) ++ " (" ++ toString year
      ++ "-" ++ pad2 (dayMonth &&& 0xff) ++ "-"
      ++ pad2 ((dayMonth &&& 0xff00) >>> 8) ++ ")")
  | _, _, _ => none

/-! Bit-arithmetic helper lemmas used to relate the two parsers. -/

theorem shiftRight_and_distrib (x y n : Nat) :
    (x &&& y) >>> n = (x >>> n) &&& (y >>> n) := by
  apply Nat.eq_of_testBit_eq
  intro i
  simp [Nat.testBit_shiftRight, Nat.testBit_and, Nat.add_comm]

theorem and_ff_eq_mod (x : Nat) : x &&& 0xff = x % 256 := by
  have h := Nat.and_pow_two_sub_one_eq_mod x 8
  norm_num at h
  exact h

theorem and_ff00_shift_eq_div (x : Nat) (h : x < 65536) :
    (x &&& 0xff00) >>> 8 = x / 256 := by
  rw [shiftRight_and_distrib]
  have h2 : (0xff00 : Nat) >>> 8 = 255 := by decide
  rw [h2]
  have h3 : x >>> 8 = x / 256 := by
    have hd := Nat.shiftRight_eq_div_pow x 8
    norm_num at hd
    exact hd
  rw [h3]
  have h4 : (x / 256) &&& 255 = (x / 256) % 256 := by
    have hm := Nat.and_pow_two_sub_one_eq_mod (x / 256) 8
    norm_num at hm
    exact hm
  rw [h4, Nat.mod_eq_of_lt (by omega)]

/-- C8: for three 16-bit registers the firmware string is
"{major}.{minor} ({year}-{month:02}-{day:02})" with register 0 split
big-endian into major/minor and register 1 into day/month, and the test
vector [36, 2053, 2019] decodes to "0.36 (2019-05-08)". -/
theorem firmware_version_decoding_C8 (a b c : Nat)
    (ha : a < 65536) (hb : b < 65536) (_hc : c < 65536) :
    parse_firmware_version [a, b, c] =
      some (toString (a / 256) ++ "." ++ toString (a % 256) ++ " ("
        ++ toString c ++ "-" ++ pad2 (b % 256) ++ "-" ++ pad2 (b / 256) ++ ")")
    ∧ parse_firmware_version [36, 2053, 2019] = some "0.36 (2019-05-08)" := by
  constructor
  · simp [parse_firmware_version, toBytes2Big, ha, hb]
  · decide

/-- C8 witness: the theorem applied at the spec's concrete test vector. -/
theorem firmware_version_decoding_C8_witness :
    parse_firmware_version [36, 2053, 2019] =
      some (toString (36 / 256 : Nat) ++ "." ++ toString (36 % 256 : Nat)
        ++ " (" ++ toString (2019 : Nat) ++ "-" ++ pad2 (2053 % 256) ++ "-"
        ++ pad2 (2053 / 256) ++ ")")
    ∧ parse_firmware_version [36, 2053, 2019] = some "0.36 (2019-05-08)" :=
  firmware_version_decoding_C8 36 2053 2019 (by decide) (by decide) (by decide)

/-- C10: the byte-splitting parser of client.py and the bit-masking parser
of s21client.py agree on every list of three register values in
0..65535. -/
theorem firmware_parsers_agree_C10 (a b c : Nat)
    (ha : a < 65536) (hb : b < 65536) (_hc : c < 65536) :
    parse_firmware_version [a, b, c] = parse_firmware_version_s21 [a, b, c] := by
  simp [parse_firmware_version, parse_firmware_version_s21, toBytes2Big,
    ha, hb, and_ff_eq_mod, and_ff00_shift_eq_div a ha,
    and_ff00_shift_eq_div b hb]

/-- C10 witness: both parsers evaluated at the concrete test vector. -/
theorem firmware_parsers_agree_C10_witness :
    parse_firmware_version [36, 2053, 2019] =
      parse_firmware_version_s21 [36, 2053, 2019] :=
  firmware_parsers_agree_C10 36 2053 2019 (by decide) (by decide) (by decide)

/-! ## client.py response validation (_validate_modbus_response,
_get_registers, _get_bits)

A pymodbus response object is modelled structurally: `none` is Python None;
`isError` is the result of the isError() method when the attribute exists
and is callable, and `none` when it does not; `registers`/`bits` are the
attributes of the same names when they are lists. -/

structure MResponse where
  isError : Option Bool
  registers : Option (List Nat)
  bits : Option (List Bool)
deriving Repr, DecidableEq

/-- client.py `_validate_modbus_response`: raise on a None response or on a
response whose isError() returns true; otherwise return the response. -/
def validate_modbus_response (response : Option MResponse) :
    Except MErr MResponse :=
  match response with
  | none => Except.error MErr.comm
  | some r =>
    match r.isError with
    | some true => Except.error MErr.comm
    | _ => Except.ok r

/-- client.py `_get_registers`: validate, then require a registers list of
at least `count` elements; the full list is returned. -/
def get_registers (response : Option MResponse) (count : Nat) :
    Except MErr (List Nat) :=
  match validate_modbus_response response with
  | Except.error e => Except.error e
  | Except.ok r =>
    match r.registers with
    | none => Except.error MErr.comm
    | some regs =>
      if regs.length < count then Except.error MErr.comm else Except.ok regs

/-- client.py `_get_bits`: validate, then require a bits list of at least
`count` elements; the full list is returned. -/
def get_bits (response : Option MResponse) (count : Nat) :
    Except MErr (List Bool) :=
  match validate_modbus_response response with
  | Except.error e => Except.error e
  | Except.ok r =>
    match r.bits with
    | none => Except.error MErr.comm
    | some bs =>
      if bs.length < count then Except.error MErr.comm else Except.ok bs

/-! ## The register bank environment

The external Modbus server is modelled as a bank of coils, holding
registers and input registers; a read of (address, count) produces a
successful response carrying the addressed slice, which then passes through
the validation of _get_registers / _get_bits exactly as in client.py.
A bank too short for the request yields a short slice and hence the
CommunicationFailure of the length check. -/

def regionSlice {α : Type} (l : List α) (addr count : Nat) : List α :=
  (l.drop addr).take count

structure Bank where
  coils : List Bool
  holdings : List Nat
  inputs : List Nat
deriving Repr, DecidableEq

/-- client.py `_read_input_registers` against a bank. -/
def read_input_registers (b : Bank) (addr count : Nat) :
    Except MErr (List Nat) :=
  get_registers
    (some { isError := some false,
            registers := some (regionSlice b.inputs addr count),
            bits := none }) count

/-- client.py `_read_holding_registers` against a bank. -/
def read_holding_registers (b : Bank) (addr count : Nat) :
    Except MErr (List Nat) :=
  get_registers
    (some { isError := some false,
            registers := some (regionSlice b.holdings addr count),
            bits := none }) count

/-- client.py `_read_coils` against a bank. -/
def read_coils (b : Bank) (addr count : Nat) : Except MErr (List Bool) :=
  get_bits
    (some { isError := some false,
            registers := none,
            bits := some (regionSlice b.coils addr count) }) count

/-! ## Derived hvac mode and action (client.py lines 170-191 and
s21client.py lines 61-70) -/

/-- The hvac_mode conditional of client.py lines 170-178. -/
def hvacModeOf (isOn : Bool) (operationMode : Nat) : HVACMode :=
  if !isOn then HVACMode.OFF
  else if operationMode = 0 then HVACMode.FAN_ONLY
  else if operationMode = 1 then HVACMode.HEAT
  else if operationMode = 2 then HVACMode.COOL
  else HVACMode.AUTO

/-- The hvac_action conditional of client.py lines 179-191: operation modes
1 and 2 short-circuit to HEATING and COOLING; only the remaining modes fall
back to the temperature comparison. -/
def hvacActionOf (isOn : Bool)
    (operationMode tempBeforeHeatingX10 tempAfterHeatingX10 : Nat) :
    HVACAction :=
  if !isOn then HVACAction.OFF
  else if operationMode = 0 then HVACAction.FAN
  else if operationMode = 1 then HVACAction.HEATING
  else if operationMode = 2 then HVACAction.COOLING
  else if tempBeforeHeatingX10 < tempAfterHeatingX10 then HVACAction.HEATING
  else if tempAfterHeatingX10 < tempBeforeHeatingX10 then HVACAction.COOLING
  else HVACAction.IDLE

/-- The hvac_action conditional of s21client.py lines 66-70: every nonzero
operation mode uses the temperature comparison. -/
def hvacActionOfS21 (isOn : Bool)
    (operationMode tempBeforeHeatingX10 tempAfterHeatingX10 : Nat) :
    HVACAction :=
  if !isOn then HVACAction.OFF
  else if operationMode = 0 then HVACAction.FAN
  else if tempBeforeHeatingX10 < tempAfterHeatingX10 then HVACAction.HEATING
  else if tempAfterHeatingX10 < tempBeforeHeatingX10 then HVACAction.COOLING
  else HVACAction.IDLE

/-! ## The poll decode (client.py _poll, lines 132-216) -/

/-- The ClimateDevice constructed at client.py lines 158-214 from the three
freshly read regions.  The firmware string is parsed before construction
(see pollBody) because its failure aborts the whole poll. -/
def mkDevice (host : String) (port : Nat) (coils : List Bool)
    (holding_registers input_registers : List Nat) (swVersion : String) :
    ClimateDevice :=
  { available := true
    name := "Blauberg S21"
    unique_id := "S21_" ++ host ++ "_" ++ toString port
    temperature_unit := TEMP_CELSIUS
    precision := 1
    current_temperature := (input_registers.getD IR_CurTEMP_SuAirOut 0 : ℚ) / 10
    target_temperature := (holding_registers.getD HR_SetTEMP 0 : ℚ)
    target_temperature_step := 1
    max_temp := 30
    min_temp := 15
    current_humidity :=
      if input_registers.getD IR_CurRH_Int 0 = 0 then none
      else some (input_registers.getD IR_CurRH_Int 0 : ℚ)
    hvac_mode := hvacModeOf (coils.getD CL_POWER false)
      (holding_registers.getD HR_OPERATION_MODE 0)
    hvac_action := hvacActionOf (coils.getD CL_POWER false)
      (holding_registers.getD HR_OPERATION_MODE 0)
      (input_registers.getD IR_CurTEMP_SuAirIn 0)
      (input_registers.getD IR_CurTEMP_SuAirOut 0)
    hvac_modes := [HVACMode.OFF, HVACMode.HEAT, HVACMode.COOL,
      HVACMode.AUTO, HVACMode.FAN_ONLY]
    fan_mode := some (holding_registers.getD HR_SPEED_MODE 0)
    fan_modes := some
      (((List.range (holding_registers.getD HR_MaxSPEED_MODE 0)).map
        (fun x => x + 1)) ++ [255])
    supported_features :=
      ClimateEntityFeature_TARGET_TEMPERATURE ||| ClimateEntityFeature_FAN_MODE
    manufacturer := "Blauberg"
    model := some "S21"
    sw_version := some swVersion
    is_boosting := coils.getD CL_Boost_MODE false
    current_intake_temperature :=
      (input_registers.getD IR_CurTEMP_SuAirIn 0 : ℚ) / 10
    manual_fan_speed_percent := holding_registers.getD HR_ManualSPEED 0
    max_fan_level := holding_registers.getD HR_MaxSPEED_MODE 0
    filter_state := input_registers.getD IR_StateFILTER 0
    alarm_state := input_registers.getD IR_ALARM 0
    supply_fan_speed := some (input_registers.getD IR_SuRPM 0)
    extract_fan_speed := some (input_registers.getD IR_ExRPM 0) }

/-- Register-level operations a poll or command issues, in order. -/
inductive MEvent where
  | readCoils (addr count : Nat)
  | readHolding (addr count : Nat)
  | readInput (addr count : Nat)
  | writeCoil (addr : Nat) (value : Bool)
  | writeReg (addr value : Nat)
deriving Repr, DecidableEq

def isReadEvent : MEvent → Bool
  | MEvent.readCoils _ _ => true
  | MEvent.readHolding _ _ => true
  | MEvent.readInput _ _ => true
  | MEvent.writeCoil _ _ => false
  | MEvent.writeReg _ _ => false

/-- client.py `_poll` (lines 132-216): check the device type, read the
three regions, decode, and build the snapshot; the second component is the
ordered trace of register operations issued. -/
def pollBody (host : String) (port : Nat) (b : Bank) :
    Except MErr ClimateDevice × List MEvent :=
  match read_input_registers b IR_DeviceTYPE 1 with
  | Except.error e => (Except.error e, [MEvent.readInput IR_DeviceTYPE 1])
  | Except.ok deviceTypeRegs =>
    if deviceTypeRegs.headD 0 ≠ 1 then
      (Except.error MErr.unsupportedDevice, [MEvent.readInput IR_DeviceTYPE 1])
    else
      match read_coils b 0 4 with
      | Except.error e =>
        (Except.error e,
          [MEvent.readInput IR_DeviceTYPE 1, MEvent.readCoils 0 4])
      | Except.ok coils =>
        match read_holding_registers b 0 45 with
        | Except.error e =>
          (Except.error e,
            [MEvent.readInput IR_DeviceTYPE 1, MEvent.readCoils 0 4,
              MEvent.readHolding 0 45])
        | Except.ok holding_registers =>
          match read_input_registers b 0 39 with
          | Except.error e =>
            (Except.error e,
              [MEvent.readInput IR_DeviceTYPE 1, MEvent.readCoils 0 4,
                MEvent.readHolding 0 45, MEvent.readInput 0 39])
          | Except.ok input_registers =>
            match parse_firmware_version
                (regionSlice input_registers IR_VerMAIN_FMW_start
                  (IR_VerMAIN_FMW_end + 1 - IR_VerMAIN_FMW_start)) with
            | none =>
              (Except.error MErr.valueError,
                [MEvent.readInput IR_DeviceTYPE 1, MEvent.readCoils 0 4,
                  MEvent.readHolding 0 45, MEvent.readInput 0 39])
            | some sw =>
              (Except.ok (mkDevice host port coils holding_registers
                  input_registers sw),
                [MEvent.readInput IR_DeviceTYPE 1, MEvent.readCoils 0 4,
                  MEvent.readHolding 0 45, MEvent.readInput 0 39])

/-! ## The shared connection wrapper (client.py _do_with_connection,
lines 118-130)

The body of an operation either succeeds, carrying its result and the
client's stored device after the body ran, or fails with the exception it
raised (in client.py every failing path leaves self.device at its value on
entry, since _poll assigns it only as its final statement).  A falsy
connect() raises before the try block, so the stored device is untouched on
that path; a failure inside the try flips the available flag of the stored
snapshot in place when one exists, then re-raises the same exception. -/

def doWithConnection {α : Type} (connectOk : Bool)
    (device : Option ClimateDevice)
    (body : Except MErr (α × Option ClimateDevice)) :
    Except MErr α × Option ClimateDevice :=
  if connectOk then
    match body with
    | Except.ok (a, device2) => (Except.ok a, device2)
    | Except.error e =>
      (Except.error e,
        match device with
        | some d => some { d with available := false }
        | none => none)
  else
    (Except.error MErr.comm, device)

/-- client.py `poll`: _poll under _do_with_connection; a successful body
stores the new snapshot, and the trace of register operations is empty when
the connection could not be opened. -/
def clientPoll (connectOk : Bool) (host : String) (port : Nat)
    (device : Option ClimateDevice) (b : Bank) :
    (Except MErr ClimateDevice × Option ClimateDevice) × List MEvent :=
  match pollBody host port b with
  | (Except.ok d, evs) =>
    (doWithConnection connectOk device (Except.ok (d, some d)),
      if connectOk then evs else [])
  | (Except.error e, evs) =>
    (doWithConnection connectOk device
      (Except.error e : Except MErr (ClimateDevice × Option ClimateDevice)),
      if connectOk then evs else [])

/-! ## Command operations (client.py lines 218-259)

Commands only issue writes; their bodies never touch self.device.  The
write trace below is the body's sequence of register operations when every
write response validates. -/

/-- client.py `_turn_on`. -/
def turnOnWrites : List MEvent := [MEvent.writeCoil CL_POWER true]

/-- client.py `_turn_off`. -/
def turnOffWrites : List MEvent := [MEvent.writeCoil CL_POWER false]

/-- client.py `_set_hvac_mode` (lines 224-238): OFF only powers off; every
other mode powers on first and then writes the operation-mode register. -/
def setHvacModeWrites (hvac_mode : HVACMode) : List MEvent :=
  if hvac_mode = HVACMode.OFF then turnOffWrites
  else if hvac_mode = HVACMode.FAN_ONLY then
    turnOnWrites ++ [MEvent.writeReg HR_OPERATION_MODE 0]
  else if hvac_mode = HVACMode.HEAT then
    turnOnWrites ++ [MEvent.writeReg HR_OPERATION_MODE 1]
  else if hvac_mode = HVACMode.COOL then
    turnOnWrites ++ [MEvent.writeReg HR_OPERATION_MODE 2]
  else
    turnOnWrites ++ [MEvent.writeReg HR_OPERATION_MODE 3]

/-- client.py `set_hvac_mode`: the command body under _do_with_connection;
the body succeeds with no result and leaves the stored device unchanged. -/
def clientSetHvacMode (connectOk : Bool) (device : Option ClimateDevice)
    (hvac_mode : HVACMode) :
    (Except MErr Unit × Option ClimateDevice) × List MEvent :=
  (doWithConnection connectOk device (Except.ok ((), device)),
    if connectOk then setHvacModeWrites hvac_mode else [])

/-- client.py `_set_fan_mode`. -/
def setFanModeWrites (mode : Nat) : List MEvent :=
  [MEvent.writeReg HR_SPEED_MODE mode]

/-- client.py `_set_manual_fan_speed_percent`. -/
def setManualFanSpeedWrites (speed_percent : Nat) : List MEvent :=
  [MEvent.writeReg HR_ManualSPEED speed_percent]

/-- client.py `_set_temperature`. -/
def setTemperatureWrites (temp_celsius : Nat) : List MEvent :=
  [MEvent.writeReg HR_SetTEMP temp_celsius]

/-- client.py `_reset_filter_change_timer`. -/
def resetFilterTimerWrites : List MEvent :=
  [MEvent.writeCoil CL_RESET_FILTER_TIMER true]

/-- client.py `_reset_alarm`. -/
def resetAlarmWrites : List MEvent := [MEvent.writeCoil CL_RESET_ALARM true]

/-- client.py `_set_boost_on`. -/
def boostOnWrites : List MEvent := [MEvent.writeCoil CL_BoostSWITCH_CTRL true]

/-- client.py `_set_boost_off`. -/
def boostOffWrites : List MEvent :=
  [MEvent.writeCoil CL_BoostSWITCH_CTRL false]

/-- Any command body under _do_with_connection: the body issues the given
writes, succeeds with no result and leaves the stored device unchanged. -/
def clientCommand (connectOk : Bool) (device : Option ClimateDevice)
    (writes : List MEvent) :
    (Except MErr Unit × Option ClimateDevice) × List MEvent :=
  (doWithConnection connectOk device (Except.ok ((), device)),
    if connectOk then writes else [])

/-! ## RetryingModbusClient.retry (retrying_modbus_client.py lines 30-41)

The underlying AsyncModbusTcpClient is modelled by an oracle giving the
behaviour of its n-th connect() call and of the n-th invocation of the
retried operation, together with the connected flag each leaves behind.
Exceptions carry a numeric identity so that "the last ConnectionFailure"
is expressible. -/

inductive ConnectOut where
  | raisesConn (e : Nat)
  | raisesOther (e : Nat)
  | returns (connected : Bool)
deriving Repr, DecidableEq

inductive CallOut (α : Type) where
  | ok (a : α)
  | connErr (e : Nat)
  | otherErr (e : Nat)
deriving Repr, DecidableEq

structure LinkModel (α : Type) where
  connInit : Bool
  connectOut : Nat → ConnectOut
  callOut : Nat → CallOut α × Bool

inductive REv where
  | attemptStart (connected : Bool)
  | connect
  | call
deriving Repr, DecidableEq

inductive RetryRes (α : Type) where
  | ok (a : α)
  | connEx (e : Nat)
  | otherEx (e : Nat)
  | nameError
deriving Repr, DecidableEq

/-- The `for _ in range(3)` loop of retry: each iteration reconnects first
when the link is down, then invokes the operation; a ConnectionException
from either is remembered and the loop continues; any other exception
propagates; the for-else raises the remembered exception (nameError marks
the impossible fall-through with no remembered exception, Python's unbound
`err`).  Events record each iteration start (with the connected flag),
each connect() call and each operation invocation. -/
def retryAux {α : Type} (m : LinkModel α) :
    Nat → Bool → Nat → Nat → Option Nat → RetryRes α × List REv
  | 0, _, _, _, last =>
    (match last with
     | some e => RetryRes.connEx e
     | none => RetryRes.nameError, [])
  | fuel + 1, conn, nc, nf, _last =>
    if conn then
      match m.callOut nf with
      | (CallOut.ok a, _) =>
        (RetryRes.ok a, [REv.attemptStart conn, REv.call])
      | (CallOut.connErr e, c2) =>
        let r := retryAux m fuel c2 nc (nf + 1) (some e)
        (r.1, REv.attemptStart conn :: REv.call :: r.2)
      | (CallOut.otherErr e, _) =>
        (RetryRes.otherEx e, [REv.attemptStart conn, REv.call])
    else
      match m.connectOut nc with
      | ConnectOut.raisesConn e =>
        let r := retryAux m fuel conn (nc + 1) nf (some e)
        (r.1, REv.attemptStart conn :: REv.connect :: r.2)
      | ConnectOut.raisesOther e =>
        (RetryRes.otherEx e, [REv.attemptStart conn, REv.connect])
      | ConnectOut.returns _c1 =>
        match m.callOut nf with
        | (CallOut.ok a, _) =>
          (RetryRes.ok a, [REv.attemptStart conn, REv.connect, REv.call])
        | (CallOut.connErr e, c2) =>
          let r := retryAux m fuel c2 nc (nf + 1) (some e)
          (r.1, REv.attemptStart conn :: REv.connect :: REv.call :: r.2)
        | (CallOut.otherErr e, _) =>
          (RetryRes.otherEx e, [REv.attemptStart conn, REv.connect, REv.call])

/-- retrying_modbus_client.py `retry`: three iterations, starting from the
link's initial connected flag with no remembered exception. -/
def retry {α : Type} (m : LinkModel α) : RetryRes α × List REv :=
  retryAux m 3 m.connInit 0 0 none

/-- Checks that in an event trace every iteration that starts with the link
disconnected immediately performs a connect() call. -/
def reconnectFirst : List REv → Bool
  | [] => true
  | [REv.attemptStart false] => false
  | REv.attemptStart false :: e :: rest =>
    decide (e = REv.connect) && reconnectFirst (e :: rest)
  | _ :: rest => reconnectFirst rest

/-! ## List helper lemmas about region slices -/

theorem getD_eq_get? {α : Type} (l : List α) (n : Nat) (d : α) :
    l.getD n d = (l.get? n).getD d := rfl

theorem get?_regionSlice {α : Type} (l : List α) (addr count i : Nat)
    (h : i < count) :
    (regionSlice l addr count).get? i = l.get? (addr + i) := by
  simp [regionSlice, List.get?_eq_getElem?, List.getElem?_take, h,
    List.getElem?_drop]

theorem getD_regionSlice {α : Type} (l : List α) (addr count i : Nat) (d : α)
    (h : i < count) :
    (regionSlice l addr count).getD i d = l.getD (addr + i) d := by
  rw [getD_eq_get?, getD_eq_get?, get?_regionSlice l addr count i h]

theorem length_regionSlice {α : Type} (l : List α) (addr count : Nat) :
    (regionSlice l addr count).length = min count (l.length - addr) := by
  simp [regionSlice]

theorem get?_eq_some_getD {α : Type} (l : List α) (n : Nat) (d : α)
    (h : n < l.length) : l.get? n = some (l.getD n d) := by
  rw [getD_eq_get?]
  rcases List.get?_eq_get h with hg
  rw [hg]
  rfl

theorem regionSlice_one {α : Type} (l : List α) (addr : Nat) (d : α)
    (h : addr < l.length) : regionSlice l addr 1 = [l.getD addr d] := by
  apply List.ext_get?
  intro n
  match n with
  | 0 =>
    rw [get?_regionSlice l addr 1 0 (by omega), Nat.add_zero,
      get?_eq_some_getD l addr d (by omega)]
    rfl
  | n + 1 =>
    have h1 : (regionSlice l addr 1).length ≤ n + 1 := by
      rw [length_regionSlice]; omega
    rw [List.get?_eq_none.mpr h1, List.get?_eq_none.mpr (by simp)]

theorem regionSlice_regionSlice {α : Type} (l : List α)
    (count1 addr2 count2 : Nat) (h : addr2 + count2 ≤ count1) :
    regionSlice (regionSlice l 0 count1) addr2 count2 =
      regionSlice l addr2 count2 := by
  apply List.ext_get?
  intro n
  by_cases hn : n < count2
  · rw [get?_regionSlice _ _ _ _ hn, get?_regionSlice _ _ _ _ hn,
      get?_regionSlice _ _ _ _ (by omega)]
    simp [regionSlice]
  · have h1 : (regionSlice (regionSlice l 0 count1) addr2 count2).length ≤ n := by
      rw [length_regionSlice]; omega
    have h2 : (regionSlice l addr2 count2).length ≤ n := by
      rw [length_regionSlice]; omega
    rw [List.get?_eq_none.mpr h1, List.get?_eq_none.mpr h2]

theorem read_input_registers_ok (b : Bank) (addr count : Nat)
    (h : addr + count ≤ b.inputs.length) :
    read_input_registers b addr count =
      Except.ok (regionSlice b.inputs addr count) := by
  have hl : ¬ (regionSlice b.inputs addr count).length < count := by
    rw [length_regionSlice]; omega
  simp [read_input_registers, get_registers, validate_modbus_response, hl]

theorem read_holding_registers_ok (b : Bank) (addr count : Nat)
    (h : addr + count ≤ b.holdings.length) :
    read_holding_registers b addr count =
      Except.ok (regionSlice b.holdings addr count) := by
  have hl : ¬ (regionSlice b.holdings addr count).length < count := by
    rw [length_regionSlice]; omega
  simp [read_holding_registers, get_registers, validate_modbus_response, hl]

theorem read_coils_ok (b : Bank) (addr count : Nat)
    (h : addr + count ≤ b.coils.length) :
    read_coils b addr count = Except.ok (regionSlice b.coils addr count) := by
  have hl : ¬ (regionSlice b.coils addr count).length < count := by
    rw [length_regionSlice]; omega
  simp [read_coils, get_bits, validate_modbus_response, hl]

/-! ## Claim C7: hvac mode derivation -/

/-- C7: hvacMode is OFF iff the power coil is false; with power on it is
FAN_ONLY for operation mode 0, HEAT for 1, COOL for 2, and AUTO for 3 or
any unrecognized value. -/
theorem hvac_mode_derivation_C7 (isOn : Bool) (operationMode : Nat) :
    (hvacModeOf isOn operationMode = HVACMode.OFF ↔ isOn = false)
    ∧ (isOn = true → operationMode = 0 →
        hvacModeOf isOn operationMode = HVACMode.FAN_ONLY)
    ∧ (isOn = true → operationMode = 1 →
        hvacModeOf isOn operationMode = HVACMode.HEAT)
    ∧ (isOn = true → operationMode = 2 →
        hvacModeOf isOn operationMode = HVACMode.COOL)
    ∧ (isOn = true →
        operationMode = 3 ∨
          (operationMode ≠ 0 ∧ operationMode ≠ 1 ∧ operationMode ≠ 2) →
        hvacModeOf isOn operationMode = HVACMode.AUTO) := by
  cases isOn <;> simp [hvacModeOf] <;> split_ifs <;> simp_all

/-- C7 witness: the theorem instantiated at each power/mode shape. -/
theorem hvac_mode_derivation_C7_witness :
    (hvacModeOf false 2 = HVACMode.OFF)
    ∧ (hvacModeOf true 0 = HVACMode.FAN_ONLY)
    ∧ (hvacModeOf true 1 = HVACMode.HEAT)
    ∧ (hvacModeOf true 2 = HVACMode.COOL)
    ∧ (hvacModeOf true 3 = HVACMode.AUTO)
    ∧ (hvacModeOf true 17 = HVACMode.AUTO) :=
  ⟨(hvac_mode_derivation_C7 false 2).1.mpr rfl,
   (hvac_mode_derivation_C7 true 0).2.1 rfl rfl,
   (hvac_mode_derivation_C7 true 1).2.2.1 rfl rfl,
   (hvac_mode_derivation_C7 true 2).2.2.2.1 rfl rfl,
   (hvac_mode_derivation_C7 true 3).2.2.2.2 rfl (Or.inl rfl),
   (hvac_mode_derivation_C7 true 17).2.2.2.2 rfl
     (Or.inr ⟨by decide, by decide, by decide⟩)⟩

/-! ## Claim C3: hvac action derivation -/

/-- C3 counterexample: with power on, operation mode 1 (HEAT) and intake
temperature 2.0 above the supply-out temperature 0.5, client.py reports
HEATING, while the claim's temperature comparison (greater gives COOLING)
requires COOLING for every nonzero operation mode. -/
theorem hvac_action_C3_counterexample :
    hvacActionOf true 1 20 5 = HVACAction.HEATING
    ∧ hvacActionOf true 1 20 5 ≠ HVACAction.COOLING
    ∧ 5 < 20 := by
  decide

/-- C3 amended: hvacAction is OFF when power is false and FAN for operation
mode 0; operation modes 1 and 2 short-circuit to HEATING and COOLING
without looking at the temperatures; only the remaining modes (3 or
unrecognized) compare the intake temperature to the supply-out temperature
(less gives HEATING, greater gives COOLING, equal gives IDLE).  The older
s21client.py derivation satisfies the original temperature-comparison rule
for every nonzero operation mode. -/
theorem hvac_action_derivation_C3 (isOn : Bool) (m tB tA : Nat) :
    (isOn = false → hvacActionOf isOn m tB tA = HVACAction.OFF)
    ∧ (isOn = true → m = 0 → hvacActionOf isOn m tB tA = HVACAction.FAN)
    ∧ (isOn = true → m = 1 → hvacActionOf isOn m tB tA = HVACAction.HEATING)
    ∧ (isOn = true → m = 2 → hvacActionOf isOn m tB tA = HVACAction.COOLING)
    ∧ (isOn = true → m ≠ 0 → m ≠ 1 → m ≠ 2 →
        ((tB < tA → hvacActionOf isOn m tB tA = HVACAction.HEATING)
          ∧ (tA < tB → hvacActionOf isOn m tB tA = HVACAction.COOLING)
          ∧ (tB = tA → hvacActionOf isOn m tB tA = HVACAction.IDLE)))
    ∧ (isOn = true → m ≠ 0 →
        ((tB < tA → hvacActionOfS21 isOn m tB tA = HVACAction.HEATING)
          ∧ (tA < tB → hvacActionOfS21 isOn m tB tA = HVACAction.COOLING)
          ∧ (tB = tA → hvacActionOfS21 isOn m tB tA = HVACAction.IDLE))) := by
  cases isOn <;> simp [hvacActionOf, hvacActionOfS21] <;>
    split_ifs <;> simp_all <;> omega

/-- C3 witness: the amended theorem instantiated on both implementations,
covering each branch. -/
theorem hvac_action_derivation_C3_witness :
    (hvacActionOf false 1 10 20 = HVACAction.OFF)
    ∧ (hvacActionOf true 0 10 20 = HVACAction.FAN)
    ∧ (hvacActionOf true 1 30 20 = HVACAction.HEATING)
    ∧ (hvacActionOf true 2 10 20 = HVACAction.COOLING)
    ∧ (hvacActionOf true 3 10 20 = HVACAction.HEATING)
    ∧ (hvacActionOf true 3 20 10 = HVACAction.COOLING)
    ∧ (hvacActionOf true 3 10 10 = HVACAction.IDLE)
    ∧ (hvacActionOfS21 true 1 20 10 = HVACAction.COOLING) :=
  ⟨(hvac_action_derivation_C3 false 1 10 20).1 rfl,
   (hvac_action_derivation_C3 true 0 10 20).2.1 rfl rfl,
   (hvac_action_derivation_C3 true 1 30 20).2.2.1 rfl rfl,
   (hvac_action_derivation_C3 true 2 10 20).2.2.2.1 rfl rfl,
   ((hvac_action_derivation_C3 true 3 10 20).2.2.2.2.1 rfl (by decide)
     (by decide) (by decide)).1 (by decide),
   ((hvac_action_derivation_C3 true 3 20 10).2.2.2.2.1 rfl (by decide)
     (by decide) (by decide)).2.1 (by decide),
   ((hvac_action_derivation_C3 true 3 10 10).2.2.2.2.1 rfl (by decide)
     (by decide) (by decide)).2.2 rfl,
   ((hvac_action_derivation_C3 true 1 20 10).2.2.2.2.2 rfl
     (by decide)).2.1 (by decide)⟩

/-! ## Claim C5: read validation -/

/-- C5 counterexample: a non-error response carrying two registers for a
request of count 1 passes validation and the full two-element list is
returned — the operation does not return exactly count values and does not
fail. -/
theorem get_registers_C5_counterexample :
    get_registers
        (some { isError := some false, registers := some [5, 6], bits := none })
        1 = Except.ok [5, 6]
    ∧ [5, 6].length ≠ 1 :=
  ⟨rfl, by decide⟩

/-- C5 amended: each read returns the response's full value list, which has
at least count elements, or fails with CommunicationFailure when the
response is null, carries the error flag, has no value list, or has fewer
elements than requested. -/
theorem read_validation_C5 (count : Nat) (r : MResponse) (l : List Nat)
    (lb : List Bool) :
    (get_registers none count = Except.error MErr.comm)
    ∧ (get_bits none count = Except.error MErr.comm)
    ∧ (r.isError = some true →
        get_registers (some r) count = Except.error MErr.comm
        ∧ get_bits (some r) count = Except.error MErr.comm)
    ∧ (r.isError ≠ some true → r.registers = none →
        get_registers (some r) count = Except.error MErr.comm)
    ∧ (r.isError ≠ some true → r.registers = some l → l.length < count →
        get_registers (some r) count = Except.error MErr.comm)
    ∧ (r.isError ≠ some true → r.registers = some l → count ≤ l.length →
        get_registers (some r) count = Except.ok l)
    ∧ (r.isError ≠ some true → r.bits = none →
        get_bits (some r) count = Except.error MErr.comm)
    ∧ (r.isError ≠ some true → r.bits = some lb → lb.length < count →
        get_bits (some r) count = Except.error MErr.comm)
    ∧ (r.isError ≠ some true → r.bits = some lb → count ≤ lb.length →
        get_bits (some r) count = Except.ok lb) := by
  obtain ⟨ie, regs, bts⟩ := r
  refine ⟨rfl, rfl, ?_, ?_, ?_, ?_, ?_, ?_, ?_⟩ <;>
    rcases ie with _ | b <;>
    simp_all [get_registers, get_bits, validate_modbus_response]

/-- C5 witness: the amended theorem at a concrete response of three
registers and two bits read with count 2. -/
theorem read_validation_C5_witness :
    get_registers
        (some { isError := some false, registers := some [7, 8, 9],
                bits := some [true, false] }) 2 = Except.ok [7, 8, 9]
    ∧ get_bits
        (some { isError := some false, registers := some [7, 8, 9],
                bits := some [true, false] }) 2 = Except.ok [true, false] :=
  ⟨(read_validation_C5 2
      { isError := some false, registers := some [7, 8, 9],
        bits := some [true, false] } [7, 8, 9] [true, false]).2.2.2.2.2.1
      (by decide) rfl (by decide),
   (read_validation_C5 2
      { isError := some false, registers := some [7, 8, 9],
        bits := some [true, false] } [7, 8, 9] [true, false]).2.2.2.2.2.2.2.2
      (by decide) rfl (by decide)⟩

/-! ## Claim C1: failure handling of the shared connection wrapper -/

/-- A concrete snapshot, as a successful poll would have produced it. -/
def sampleDevice : ClimateDevice :=
  { available := true
    name := "Blauberg S21"
    unique_id := "S21_localhost_502"
    temperature_unit := TEMP_CELSIUS
    precision := 1
    current_temperature := 96 / 5
    target_temperature := 15
    target_temperature_step := 1
    max_temp := 30
    min_temp := 15
    current_humidity := none
    hvac_mode := HVACMode.FAN_ONLY
    hvac_action := HVACAction.FAN
    hvac_modes := [HVACMode.OFF, HVACMode.HEAT, HVACMode.COOL,
      HVACMode.AUTO, HVACMode.FAN_ONLY]
    fan_mode := some 2
    fan_modes := some [1, 2, 3, 255]
    supported_features := 9
    manufacturer := "Blauberg"
    model := some "S21"
    sw_version := some "0.36 (2019-05-08)"
    is_boosting := false
    current_intake_temperature := 54 / 5
    manual_fan_speed_percent := 100
    max_fan_level := 3
    filter_state := 3
    alarm_state := 2
    supply_fan_speed := some 0
    extract_fan_speed := some 0 }

/-- C1 counterexample: a poll on a client holding a snapshot fails because
connect() returns falsy; the ModbusCommunicationException is raised before
the try block of _do_with_connection, so the operation fails yet the stored
snapshot keeps available = true — not every failing client operation flips
the flag. -/
theorem failure_marks_unavailable_C1_counterexample :
    (clientPoll false "localhost" 502 (some sampleDevice)
        { coils := [], holdings := [], inputs := [] }).1
      = (Except.error MErr.comm, some sampleDevice)
    ∧ sampleDevice.available = true :=
  ⟨rfl, rfl⟩

/-- C1 amended: a failure raised by the operation body after the connection
was opened flips the stored snapshot's available flag to false, leaves
every other field of that same snapshot unchanged, and re-raises the
failure unchanged; with no stored snapshot the failure propagates with no
other effect; a connection-open failure (connect() falsy) propagates
without touching the stored snapshot. -/
theorem failure_marks_unavailable_C1 (α : Type) (d : ClimateDevice)
    (e : MErr) (body : Except MErr (α × Option ClimateDevice)) :
    (doWithConnection true (some d)
        (Except.error e : Except MErr (α × Option ClimateDevice))
      = (Except.error e, some { d with available := false }))
    ∧ (doWithConnection true (none : Option ClimateDevice)
        (Except.error e : Except MErr (α × Option ClimateDevice))
      = (Except.error e, none))
    ∧ (doWithConnection false (some d) body
      = (Except.error MErr.comm, some d))
    ∧ ({ d with available := false } : ClimateDevice).available = false
    ∧ ({ d with available := false } : ClimateDevice).name = d.name
    ∧ ({ d with available := false } : ClimateDevice).unique_id = d.unique_id
    ∧ ({ d with available := false } : ClimateDevice).temperature_unit
      = d.temperature_unit
    ∧ ({ d with available := false } : ClimateDevice).precision = d.precision
    ∧ ({ d with available := false } : ClimateDevice).current_temperature
      = d.current_temperature
    ∧ ({ d with available := false } : ClimateDevice).target_temperature
      = d.target_temperature
    ∧ ({ d with available := false } : ClimateDevice).target_temperature_step
      = d.target_temperature_step
    ∧ ({ d with available := false } : ClimateDevice).max_temp = d.max_temp
    ∧ ({ d with available := false } : ClimateDevice).min_temp = d.min_temp
    ∧ ({ d with available := false } : ClimateDevice).current_humidity
      = d.current_humidity
    ∧ ({ d with available := false } : ClimateDevice).hvac_mode = d.hvac_mode
    ∧ ({ d with available := false } : ClimateDevice).hvac_action
      = d.hvac_action
    ∧ ({ d with available := false } : ClimateDevice).hvac_modes
      = d.hvac_modes
    ∧ ({ d with available := false } : ClimateDevice).fan_mode = d.fan_mode
    ∧ ({ d with available := false } : ClimateDevice).fan_modes = d.fan_modes
    ∧ ({ d with available := false } : ClimateDevice).supported_features
      = d.supported_features
    ∧ ({ d with available := false } : ClimateDevice).manufacturer
      = d.manufacturer
    ∧ ({ d with available := false } : ClimateDevice).model = d.model
    ∧ ({ d with available := false } : ClimateDevice).sw_version
      = d.sw_version
    ∧ ({ d with available := false } : ClimateDevice).is_boosting
      = d.is_boosting
    ∧ ({ d with available := false } : ClimateDevice).current_intake_temperature
      = d.current_intake_temperature
    ∧ ({ d with available := false } : ClimateDevice).manual_fan_speed_percent
      = d.manual_fan_speed_percent
    ∧ ({ d with available := false } : ClimateDevice).max_fan_level
      = d.max_fan_level
    ∧ ({ d with available := false } : ClimateDevice).filter_state
      = d.filter_state
    ∧ ({ d with available := false } : ClimateDevice).alarm_state
      = d.alarm_state
    ∧ ({ d with available := false } : ClimateDevice).supply_fan_speed
      = d.supply_fan_speed
    ∧ ({ d with available := false } : ClimateDevice).extract_fan_speed
      = d.extract_fan_speed := by
  refine ⟨rfl, rfl, rfl, rfl, rfl, rfl, rfl, rfl, rfl, rfl, rfl, rfl, rfl,
    rfl, rfl, rfl, rfl, rfl, rfl, rfl, rfl, rfl, rfl, rfl, rfl, rfl, rfl,
    rfl, rfl, rfl, rfl⟩

/-! ## Claim C9: setHvacMode writes -/

/-- C9: setHvacMode(OFF) writes only the power coil false; every other mode
writes the power coil true and then the operation-mode register (0 for
FAN_ONLY, 1 for HEAT, 2 for COOL, 3 for AUTO); no command operation issues
a read, and a successful command leaves the stored snapshot unchanged. -/
theorem set_hvac_mode_writes_C9 (hvac_mode : HVACMode)
    (device : Option ClimateDevice) (n : Nat) :
    (setHvacModeWrites HVACMode.OFF = [MEvent.writeCoil CL_POWER false])
    ∧ (setHvacModeWrites HVACMode.FAN_ONLY
      = [MEvent.writeCoil CL_POWER true, MEvent.writeReg HR_OPERATION_MODE 0])
    ∧ (setHvacModeWrites HVACMode.HEAT
      = [MEvent.writeCoil CL_POWER true, MEvent.writeReg HR_OPERATION_MODE 1])
    ∧ (setHvacModeWrites HVACMode.COOL
      = [MEvent.writeCoil CL_POWER true, MEvent.writeReg HR_OPERATION_MODE 2])
    ∧ (setHvacModeWrites HVACMode.AUTO
      = [MEvent.writeCoil CL_POWER true, MEvent.writeReg HR_OPERATION_MODE 3])
    ∧ ((setHvacModeWrites hvac_mode).all (fun ev => !isReadEvent ev) = true)
    ∧ ((turnOnWrites ++ turnOffWrites ++ setFanModeWrites n
        ++ setManualFanSpeedWrites n ++ setTemperatureWrites n
        ++ resetFilterTimerWrites ++ resetAlarmWrites ++ boostOnWrites
        ++ boostOffWrites).all (fun ev => !isReadEvent ev) = true)
    ∧ (clientSetHvacMode true device hvac_mode
      = ((Except.ok (), device), setHvacModeWrites hvac_mode))
    ∧ (∀ writes : List MEvent,
        clientCommand true device writes = ((Except.ok (), device), writes)) := by
  refine ⟨rfl, rfl, rfl, rfl, rfl, ?_, rfl, rfl, fun _ => rfl⟩
  cases hvac_mode <;> rfl

/-! ## Claim C6: unsupported device type -/

/-- C6: when the device-type input register differs from 1, poll fails with
UnsupportedDeviceFailure as its first step — the trace holds only the
device-type read, none of the three region reads — and no new snapshot is
stored: the client keeps its previous snapshot (with the availability flip
of the shared failure handling) or stays without one. -/
theorem unsupported_device_C6 (host : String) (port : Nat) (b : Bank)
    (device : Option ClimateDevice)
    (hlen : IR_DeviceTYPE + 1 ≤ b.inputs.length)
    (hdt : b.inputs.getD IR_DeviceTYPE 0 ≠ 1) :
    pollBody host port b
      = (Except.error MErr.unsupportedDevice, [MEvent.readInput IR_DeviceTYPE 1])
    ∧ clientPoll true host port device b
      = ((Except.error MErr.unsupportedDevice,
          device.map (fun d => { d with available := false })),
        [MEvent.readInput IR_DeviceTYPE 1]) := by
  have h1 : read_input_registers b IR_DeviceTYPE 1
      = Except.ok [b.inputs.getD IR_DeviceTYPE 0] := by
    rw [read_input_registers_ok b IR_DeviceTYPE 1 hlen,
      regionSlice_one b.inputs IR_DeviceTYPE 0 (by omega)]
  have h2 : pollBody host port b
      = (Except.error MErr.unsupportedDevice,
        [MEvent.readInput IR_DeviceTYPE 1]) := by
    unfold pollBody
    rw [h1]
    simp only [List.headD_cons]
    rw [if_pos hdt]
  refine ⟨h2, ?_⟩
  unfold clientPoll
  rw [h2]
  cases device <;> rfl

/-- C6 witness: a bank of 38 zeroed input registers (device type 0) with a
stored snapshot. -/
theorem unsupported_device_C6_witness :
    IR_DeviceTYPE + 1 ≤ (List.replicate 38 0).length
    ∧ (List.replicate 38 (0 : Nat)).getD IR_DeviceTYPE 0 ≠ 1
    ∧ pollBody "localhost" 502
        { coils := [], holdings := [], inputs := List.replicate 38 0 }
      = (Except.error MErr.unsupportedDevice,
        [MEvent.readInput IR_DeviceTYPE 1])
    ∧ clientPoll true "localhost" 502 (some sampleDevice)
        { coils := [], holdings := [], inputs := List.replicate 38 0 }
      = ((Except.error MErr.unsupportedDevice,
          some { sampleDevice with available := false }),
        [MEvent.readInput IR_DeviceTYPE 1]) := by
  refine ⟨by decide, by decide, ?_, ?_⟩
  · exact (unsupported_device_C6 "localhost" 502
      { coils := [], holdings := [], inputs := List.replicate 38 0 }
      (some sampleDevice) (by decide) (by decide)).1
  · exact (unsupported_device_C6 "localhost" 502
      { coils := [], holdings := [], inputs := List.replicate 38 0 }
      (some sampleDevice) (by decide) (by decide)).2

/-! ## Claim C2: a successful poll builds and stores the snapshot -/

theorem getD_regionSlice_zero {α : Type} (l : List α) (count i : Nat) (d : α)
    (h : i < count) : (regionSlice l 0 count).getD i d = l.getD i d := by
  rw [getD_regionSlice l 0 count i d h, Nat.zero_add]

theorem parse_firmware_version_eq (a b c : Nat) (ha : a < 65536)
    (hb : b < 65536) :
    parse_firmware_version [a, b, c] =
      some (toString (a / 256) ++ "." ++ toString (a % 256) ++ " ("
        ++ toString c ++ "-" ++ pad2 (b % 256) ++ "-" ++ pad2 (b / 256)
        ++ ")") := by
  simp [parse_firmware_version, toBytes2Big, ha, hb]

theorem regionSlice_three (l : List Nat) (addr : Nat)
    (h : addr + 3 ≤ l.length) :
    regionSlice l addr 3 =
      [l.getD addr 0, l.getD (addr + 1) 0, l.getD (addr + 2) 0] := by
  apply List.ext_get?
  intro n
  match n with
  | 0 =>
    rw [get?_regionSlice _ _ _ _ (by omega), Nat.add_zero,
      get?_eq_some_getD l addr 0 (by omega)]
    rfl
  | 1 =>
    rw [get?_regionSlice _ _ _ _ (by omega),
      get?_eq_some_getD l (addr + 1) 0 (by omega)]
    rfl
  | 2 =>
    rw [get?_regionSlice _ _ _ _ (by omega),
      get?_eq_some_getD l (addr + 2) 0 (by omega)]
    rfl
  | n + 3 =>
    have h1 : (regionSlice l addr 3).length ≤ n + 3 := by
      rw [length_regionSlice]; omega
    rw [List.get?_eq_none.mpr h1, List.get?_eq_none.mpr (by simp)]

/-- C2: whenever the device-type check passes and the three region reads
succeed (the bank covers coils [0,4), holding registers [0,45) and input
registers [0,39), with 16-bit firmware registers), poll builds a new
snapshot — including the diagnostics isBoosting, filterState, alarmState
and the optional supplyFanSpeed/extractFanSpeed — stores it on the client
replacing any previous snapshot, and returns it. -/
theorem poll_builds_snapshot_C2 (host : String) (port : Nat) (b : Bank)
    (device : Option ClimateDevice)
    (hco : 4 ≤ b.coils.length) (hho : 45 ≤ b.holdings.length)
    (hin : 39 ≤ b.inputs.length)
    (hdt : b.inputs.getD IR_DeviceTYPE 0 = 1)
    (hf0 : b.inputs.getD 34 0 < 65536) (hf1 : b.inputs.getD 35 0 < 65536) :
    ∃ d : ClimateDevice,
      pollBody host port b =
        (Except.ok d,
          [MEvent.readInput IR_DeviceTYPE 1, MEvent.readCoils 0 4,
            MEvent.readHolding 0 45, MEvent.readInput 0 39])
      ∧ clientPoll true host port device b =
        ((Except.ok d, some d),
          [MEvent.readInput IR_DeviceTYPE 1, MEvent.readCoils 0 4,
            MEvent.readHolding 0 45, MEvent.readInput 0 39])
      ∧ d.available = true
      ∧ d.is_boosting = b.coils.getD CL_Boost_MODE false
      ∧ d.filter_state = b.inputs.getD IR_StateFILTER 0
      ∧ d.alarm_state = b.inputs.getD IR_ALARM 0
      ∧ d.supply_fan_speed = some (b.inputs.getD IR_SuRPM 0)
      ∧ d.extract_fan_speed = some (b.inputs.getD IR_ExRPM 0)
      ∧ d.sw_version = parse_firmware_version
          [b.inputs.getD 34 0, b.inputs.getD 35 0, b.inputs.getD 36 0] := by
  have e1 : read_input_registers b IR_DeviceTYPE 1
      = Except.ok [b.inputs.getD IR_DeviceTYPE 0] := by
    rw [read_input_registers_ok b IR_DeviceTYPE 1 (by simp [IR_DeviceTYPE]; omega),
      regionSlice_one b.inputs IR_DeviceTYPE 0 (by simp [IR_DeviceTYPE]; omega)]
  have e2 : read_coils b 0 4 = Except.ok (regionSlice b.coils 0 4) :=
    read_coils_ok b 0 4 (by omega)
  have e3 : read_holding_registers b 0 45
      = Except.ok (regionSlice b.holdings 0 45) :=
    read_holding_registers_ok b 0 45 (by omega)
  have e4 : read_input_registers b 0 39
      = Except.ok (regionSlice b.inputs 0 39) :=
    read_input_registers_ok b 0 39 (by omega)
  have e5 : regionSlice (regionSlice b.inputs 0 39) IR_VerMAIN_FMW_start
      (IR_VerMAIN_FMW_end + 1 - IR_VerMAIN_FMW_start)
      = [b.inputs.getD 34 0, b.inputs.getD 35 0, b.inputs.getD 36 0] := by
    show regionSlice (regionSlice b.inputs 0 39) 34 3 = _
    rw [regionSlice_regionSlice b.inputs 39 34 3 (by omega),
      regionSlice_three b.inputs 34 (by omega)]
  have hs := parse_firmware_version_eq (b.inputs.getD 34 0)
    (b.inputs.getD 35 0) (b.inputs.getD 36 0) hf0 hf1
  have hpoll : pollBody host port b =
      (Except.ok (mkDevice host port (regionSlice b.coils 0 4)
          (regionSlice b.holdings 0 45) (regionSlice b.inputs 0 39)
          (toString (b.inputs.getD 34 0 / 256) ++ "."
            ++ toString (b.inputs.getD 34 0 % 256) ++ " ("
            ++ toString (b.inputs.getD 36 0) ++ "-"
            ++ pad2 (b.inputs.getD 35 0 % 256) ++ "-"
            ++ pad2 (b.inputs.getD 35 0 / 256) ++ ")")),
        [MEvent.readInput IR_DeviceTYPE 1, MEvent.readCoils 0 4,
          MEvent.readHolding 0 45, MEvent.readInput 0 39]) := by
    unfold pollBody
    rw [e1]
    simp only [List.headD_cons]
    rw [if_neg (show ¬ b.inputs.getD IR_DeviceTYPE 0 ≠ 1 from fun hne => hne hdt)]
    rw [e2, e3, e4]
    simp only [e5, hs]
  refine ⟨_, hpoll, ?_, rfl, ?_, ?_, ?_, ?_, ?_, ?_⟩
  · unfold clientPoll
    rw [hpoll]
    rfl
  · exact getD_regionSlice_zero b.coils 4 CL_Boost_MODE false (by decide)
  · exact getD_regionSlice_zero b.inputs 39 IR_StateFILTER 0 (by decide)
  · exact getD_regionSlice_zero b.inputs 39 IR_ALARM 0 (by decide)
  · show some ((regionSlice b.inputs 0 39).getD IR_SuRPM 0) = _
    rw [getD_regionSlice_zero b.inputs 39 IR_SuRPM 0 (by decide)]
  · show some ((regionSlice b.inputs 0 39).getD IR_ExRPM 0) = _
    rw [getD_regionSlice_zero b.inputs 39 IR_ExRPM 0 (by decide)]
  · rw [hs]
    rfl

/-- A concrete register bank mirroring the repository's unit test
test_poll. -/
def testBank : Bank :=
  { coils := [true, false, false, false]
    holdings := [0, 3, 2, 0, 0, 0, 0, 0, 0, 0,
                 0, 0, 0, 0, 0, 0, 0, 100, 0, 0,
                 0, 0, 0, 0, 0, 0, 0, 0, 0, 0,
                 0, 0, 0, 0, 0, 0, 0, 0, 0, 0,
                 0, 0, 0, 0, 15]
    inputs := [0, 108, 192, 0, 0, 0, 0, 0, 0, 0,
               0, 0, 0, 0, 0, 0, 0, 0, 0, 0,
               0, 0, 0, 0, 0, 0, 0, 0, 0, 0,
               0, 3, 0, 0, 36, 2053, 2019, 1, 2] }

/-- C2 witness: the theorem applied to the unit test's register bank. -/
theorem poll_builds_snapshot_C2_witness :
    4 ≤ testBank.coils.length
    ∧ 45 ≤ testBank.holdings.length
    ∧ 39 ≤ testBank.inputs.length
    ∧ testBank.inputs.getD IR_DeviceTYPE 0 = 1
    ∧ testBank.inputs.getD 34 0 < 65536
    ∧ testBank.inputs.getD 35 0 < 65536
    ∧ ∃ d : ClimateDevice,
      pollBody "localhost" 502 testBank =
        (Except.ok d,
          [MEvent.readInput IR_DeviceTYPE 1, MEvent.readCoils 0 4,
            MEvent.readHolding 0 45, MEvent.readInput 0 39])
      ∧ clientPoll true "localhost" 502 (some sampleDevice) testBank =
        ((Except.ok d, some d),
          [MEvent.readInput IR_DeviceTYPE 1, MEvent.readCoils 0 4,
            MEvent.readHolding 0 45, MEvent.readInput 0 39])
      ∧ d.available = true
      ∧ d.is_boosting = testBank.coils.getD CL_Boost_MODE false
      ∧ d.filter_state = testBank.inputs.getD IR_StateFILTER 0
      ∧ d.alarm_state = testBank.inputs.getD IR_ALARM 0
      ∧ d.supply_fan_speed = some (testBank.inputs.getD IR_SuRPM 0)
      ∧ d.extract_fan_speed = some (testBank.inputs.getD IR_ExRPM 0)
      ∧ d.sw_version = parse_firmware_version
          [testBank.inputs.getD 34 0, testBank.inputs.getD 35 0,
            testBank.inputs.getD 36 0] :=
  ⟨by decide, by decide, by decide, by decide, by decide, by decide,
   poll_builds_snapshot_C2 "localhost" 502 testBank (some sampleDevice)
     (by decide) (by decide) (by decide) (by decide) (by decide) (by decide)⟩

/-! ## Claim C4: the retry policy -/

def isAttemptStart : REv → Bool
  | REv.attemptStart _ => true
  | REv.connect => false
  | REv.call => false

theorem isAttemptStart_start (b : Bool) :
    isAttemptStart (REv.attemptStart b) = true := rfl

theorem isAttemptStart_connect : isAttemptStart REv.connect = false := rfl

theorem isAttemptStart_call : isAttemptStart REv.call = false := rfl

/-- Bounds and structure of any retryAux run: at most `fuel` operation
invocations, at most `fuel` iterations, and every iteration starting
disconnected reconnects first. -/
theorem retryAux_bounds {α : Type} (m : LinkModel α) :
    ∀ (fuel : Nat) (conn : Bool) (nc nf : Nat) (last : Option Nat),
      (retryAux m fuel conn nc nf last).2.count REv.call ≤ fuel
      ∧ (retryAux m fuel conn nc nf last).2.countP
          (fun ev => isAttemptStart ev) ≤ fuel
      ∧ reconnectFirst (retryAux m fuel conn nc nf last).2 = true := by
  intro fuel
  induction fuel with
  | zero =>
    intro conn nc nf last
    cases last <;> simp [retryAux, reconnectFirst]
  | succ n ih =>
    intro conn nc nf last
    cases conn
    · cases hc : m.connectOut nc with
      | raisesConn e =>
        have h := ih false (nc + 1) nf (some e)
        simp [retryAux, hc, List.count_cons, List.countP_cons,
          reconnectFirst, isAttemptStart_start, isAttemptStart_connect,
          isAttemptStart_call]
        exact ⟨by omega, by omega, h.2.2⟩
      | raisesOther e =>
        simp [retryAux, hc, List.count_cons, List.countP_cons,
          reconnectFirst, isAttemptStart_start, isAttemptStart_connect,
          isAttemptStart_call]
      | returns c1 =>
        cases hf : m.callOut nf with
        | mk res c2 =>
          cases res with
          | ok a =>
            simp [retryAux, hc, hf, List.count_cons, List.countP_cons,
              reconnectFirst, isAttemptStart_start, isAttemptStart_connect,
              isAttemptStart_call]
          | connErr e =>
            have h := ih c2 nc (nf + 1) (some e)
            simp [retryAux, hc, hf, List.count_cons, List.countP_cons,
              reconnectFirst, isAttemptStart_start, isAttemptStart_connect,
              isAttemptStart_call]
            exact ⟨by omega, by omega, h.2.2⟩
          | otherErr e =>
            simp [retryAux, hc, hf, List.count_cons, List.countP_cons,
              reconnectFirst, isAttemptStart_start, isAttemptStart_connect,
              isAttemptStart_call]
    · cases hf : m.callOut nf with
      | mk res c2 =>
        cases res with
        | ok a =>
          simp [retryAux, hf, List.count_cons, List.countP_cons,
            reconnectFirst, isAttemptStart_start, isAttemptStart_connect,
            isAttemptStart_call]
        | connErr e =>
          have h := ih c2 nc (nf + 1) (some e)
          simp [retryAux, hf, List.count_cons, List.countP_cons,
            reconnectFirst, isAttemptStart_start, isAttemptStart_connect,
            isAttemptStart_call]
          exact ⟨by omega, by omega, h.2.2⟩
        | otherErr e =>
          simp [retryAux, hf, List.count_cons, List.countP_cons,
            reconnectFirst, isAttemptStart_start, isAttemptStart_connect,
            isAttemptStart_call]

/-- An underlying client whose operation raises ConnectionException on its
first two invocations and succeeds on the third. -/
def twoFailModel (e1 e2 v : Nat) : LinkModel Nat :=
  { connInit := true
    connectOut := fun _ => ConnectOut.returns true
    callOut := fun n =>
      if n = 0 then (CallOut.connErr e1, true)
      else if n = 1 then (CallOut.connErr e2, true)
      else (CallOut.ok v, true) }

/-- An underlying client whose operation raises ConnectionException on
every invocation (identities e1, e2, e3 in order). -/
def threeFailModel (e1 e2 e3 : Nat) : LinkModel Nat :=
  { connInit := true
    connectOut := fun _ => ConnectOut.returns true
    callOut := fun n =>
      if n = 0 then (CallOut.connErr e1, true)
      else if n = 1 then (CallOut.connErr e2, true)
      else (CallOut.connErr e3, true) }

/-- An underlying client whose operation raises a non-connection exception
immediately. -/
def otherFailModel (err : Nat) : LinkModel Nat :=
  { connInit := true
    connectOut := fun _ => ConnectOut.returns true
    callOut := fun _ => (CallOut.otherErr err, true) }

/-- C4: retry makes at most 3 attempts, reconnecting first whenever an
attempt starts with the link down; a ConnectionException consumes one try
and is retried (two connection failures then a success yields the success);
after three connection failures the last one propagates; any other failure
propagates immediately after a single invocation. -/
theorem retry_policy_C4 :
    (∀ m : LinkModel Nat,
      (retry m).2.count REv.call ≤ 3
      ∧ (retry m).2.countP (fun ev => isAttemptStart ev) ≤ 3
      ∧ reconnectFirst (retry m).2 = true)
    ∧ (∀ e1 e2 v : Nat, (retry (twoFailModel e1 e2 v)).1 = RetryRes.ok v)
    ∧ (∀ e1 e2 e3 : Nat,
        (retry (threeFailModel e1 e2 e3)).1 = RetryRes.connEx e3)
    ∧ (∀ err : Nat,
        (retry (otherFailModel err)).1 = RetryRes.otherEx err
        ∧ (retry (otherFailModel err)).2.count REv.call = 1) :=
  ⟨fun m => retryAux_bounds m 3 m.connInit 0 0 none,
   fun _ _ _ => rfl,
   fun _ _ _ => rfl,
   fun _ => ⟨rfl, rfl⟩⟩
